import Mathlib

/-!
Verification of the github-pr-reviewer repository against its design spec.

The Python sources are shallowly embedded below:
* `src/github_client.py` : the resilient request executor (`_handle_rate_limit`,
  `_make_request`) and the repository gateway (`get_open_pull_requests`,
  `get_pull_request_details`).
* `src/llm_reviewer.py`  : `truncate_content`, `_call_huggingface_api`,
  `_clean_review_response`, `generate_review`, `generate_review_with_fallback`,
  `_generate_fallback_review`.
* `src/config.py`        : `_parse_repository`.

HTTP responses and exceptions are modelled by explicit outcome oracles
(`Nat → GhOutcome`, `Nat → HFOutcome`): the k-th value is what the k-th
attempted network call produces.  Wall-clock time is a rational supplied per
attempt.  JSON payloads are modelled by the inductive `JVal`; a Python `None`
(absent key, or JSON `null` value) is modelled by `Option.none`.
-/

/-- JSON values as produced by `response.json()`.  JSON numbers are restricted
to integers (the GitHub fields involved are integers). -/
inductive JVal where
  | jnull
  | jbool (b : Bool)
  | jnum (n : Int)
  | jstr (s : String)
  | jlist (l : List JVal)
  | jobj (o : List (String × JVal))

/-- Key lookup in a JSON object (Python `dict` built from a JSON object). -/
def jLookup : List (String × JVal) → String → Option JVal
  | [], _ => none
  | (k', v) :: rest, k => if k' = k then some v else jLookup rest k

/-- Python `d.get(k)` on a dict parsed from JSON: returns Python `None` both
when the key is absent and when its value is JSON `null`. -/
def pyGet (o : List (String × JVal)) (k : String) : Option JVal :=
  match jLookup o k with
  | some JVal.jnull => none
  | some v => some v
  | none => none

/-- Python `d.get(k, d0)` on a dict parsed from JSON: the default is used only
when the key is absent; a present `null` value is returned as Python `None`. -/
def pyGetD (o : List (String × JVal)) (k : String) (d0 : JVal) : Option JVal :=
  match jLookup o k with
  | some JVal.jnull => none
  | some v => some v
  | none => some d0

/-- Python truthiness of a JSON value. -/
def vTruthy : JVal → Bool
  | JVal.jnull => false
  | JVal.jbool b => b
  | JVal.jnum n => n != 0
  | JVal.jstr s => s != ""
  | JVal.jlist l => !l.isEmpty
  | JVal.jobj o => !o.isEmpty

/-- Python `x or d` where `x` is an optional JSON value and `d` a default. -/
def pyOr (v : Option JVal) (d0 : JVal) : JVal :=
  match v with
  | some x => if vTruthy x then x else d0
  | none => d0

/-! ## Executor model (`src/github_client.py`) -/

/-- The `X-RateLimit-Reset` header of a response: absent, present but not
parsable as an integer (Python `int(...)` raises), or a parsed timestamp. -/
inductive ResetInfo where
  | absent
  | invalid
  | valid (t : Int)
deriving DecidableEq

/-- An HTTP response as seen by `_make_request` / `_handle_rate_limit`:
status code, the integer value of `X-RateLimit-Remaining` when that header is
present (modelled only for numeric header values), and the
`X-RateLimit-Reset` header. -/
structure Response where
  status : Nat
  remaining : Option Int
  reset : ResetInfo
deriving DecidableEq

/-- Embedding of `GitHubClient._handle_rate_limit` (github_client.py:46-92).
`now` is `time.time()` at the moment of the call.  Returns the sleep time in
seconds (Python `int(sleep_time)`, i.e. the floor of a nonnegative value), or
`none` to signal that exponential backoff should be used / that the response
is not a rate-limit response. -/
def handle_rate_limit (r : Response) (now : Rat) : Option Int :=
  if ¬(r.status = 403 ∨ r.status = 429) then none
  else
    -- rate_limit_remaining = int(response.headers.get('X-RateLimit-Remaining', '0'))
    let rem : Int := r.remaining.getD 0
    -- if rate_limit_remaining > 0 and response.status_code != 429: return None
    if 0 < rem ∧ r.status ≠ 429 then none
    else
      match r.reset with
      | ResetInfo.valid t =>
          -- sleep_time = max(reset_time - current_time, 0)
          let sleep : Rat := max ((t : Rat) - now) 0
          -- if sleep_time < 1: return None  (use exponential backoff)
          if sleep < 1 then none else some (Int.floor sleep)
      | ResetInfo.invalid => none
      | ResetInfo.absent => none

/-- Embedding of `int(response.headers.get('X-RateLimit-Remaining', '10'))`
(github_client.py:140-142), the update of `self.rate_limit_remaining` made
after every completed call.  No clamping is performed by the source. -/
def parseRemaining (r : Response) : Int :=
  r.remaining.getD 10

/-- The outcome of one `self.session.get(...)` attempt inside
`_make_request`: a response, or one of the caught exception classes. -/
inductive GhOutcome where
  | resp (r : Response)
  | timeout
  | connError
  | otherExc
deriving DecidableEq

/-- Result of `_make_request`: returned value, number of HTTP call attempts
actually issued, and the final `rate_limit_remaining` state. -/
structure MRResult where
  result : Option Response
  attempts : Nat
  rem : Int
deriving DecidableEq

/-- Embedding of the `for attempt in range(max_retries + 1)` loop of
`GitHubClient._make_request` (github_client.py:125-207).  `fuel` is the
number of loop iterations still available; the wrapper `make_request` starts
it at `mr + 1`, exactly mirroring `range(max_retries + 1)`.  `st` is the
current `rate_limit_remaining` state.  A response with a 4xx/5xx status that
is not handled as a rate limit makes `response.raise_for_status()` raise
`HTTPError`, which the generic `except RequestException` branch turns into an
immediate `None`. -/
def runAttempts (mr : Nat) (world : Nat → GhOutcome) (clock : Nat → Rat) :
    Nat → Nat → Int → MRResult
  | 0, _, st => ⟨none, 0, st⟩
  | fuel + 1, attempt, st =>
    match world attempt with
    | GhOutcome.resp r =>
      -- self.rate_limit_remaining = int(headers.get('X-RateLimit-Remaining', '10'))
      let st' := parseRemaining r
      if r.status = 403 ∨ r.status = 429 then
        match handle_rate_limit r (clock attempt) with
        | some _ =>
          -- time.sleep(sleep_time); continue
          let nxt := runAttempts mr world clock fuel (attempt + 1) st'
          ⟨nxt.result, nxt.attempts + 1, nxt.rem⟩
        | none =>
          if attempt < mr then
            -- exponential backoff, then continue
            let nxt := runAttempts mr world clock fuel (attempt + 1) st'
            ⟨nxt.result, nxt.attempts + 1, nxt.rem⟩
          else ⟨none, 1, st'⟩
      else if 400 ≤ r.status ∧ r.status < 600 then
        -- response.raise_for_status() raises; caught as RequestException
        ⟨none, 1, st'⟩
      else ⟨some r, 1, st'⟩
    | GhOutcome.timeout =>
      if attempt < mr then
        let nxt := runAttempts mr world clock fuel (attempt + 1) st
        ⟨nxt.result, nxt.attempts + 1, nxt.rem⟩
      else ⟨none, 1, st⟩
    | GhOutcome.connError =>
      if attempt < mr then
        let nxt := runAttempts mr world clock fuel (attempt + 1) st
        ⟨nxt.result, nxt.attempts + 1, nxt.rem⟩
      else ⟨none, 1, st⟩
    | GhOutcome.otherExc => ⟨none, 1, st⟩

/-- Embedding of `GitHubClient._make_request` for a given retry ceiling `mr`
(`max_retries`), outcome oracle, per-attempt clock, and incoming
`rate_limit_remaining` state (initialised to 10 in `__init__`). -/
def make_request (mr : Nat) (world : Nat → GhOutcome) (clock : Nat → Rat)
    (st : Int) : MRResult :=
  runAttempts mr world clock (mr + 1) 0 st

/-! ## Repository gateway model (`src/github_client.py:209-315`) -/

/-- A pull request summary as built by `get_open_pull_requests`
(github_client.py:252-258).  Fields hold the Python values of the
`pr_dict`; `Option.none` models Python `None`. -/
structure Summary where
  number : Option JVal
  title : JVal
  body : JVal
  html_url : JVal
  user : Option JVal

/-- A pull request detail as built by `get_pull_request_details`
(github_client.py:306-315). -/
structure Detail where
  number : Option JVal
  title : JVal
  body : JVal
  html_url : JVal
  user : Option JVal
  state : Option JVal
  created_at : Option JVal
  updated_at : Option JVal

/-- The `author` computation shared by both gateway functions
(github_client.py:248-249 and 302-303):
`user_obj = pr.get('user') or {}` then
`author = user_obj.get('login') if isinstance(user_obj, dict) else 'unknown'`. -/
def extractAuthor (o : List (String × JVal)) : Option JVal :=
  match pyOr (pyGet o "user") (JVal.jobj []) with
  | JVal.jobj u => pyGet u "login"
  | _ => some (JVal.jstr "unknown")

/-- The per-entry parsing step of `get_open_pull_requests`
(github_client.py:242-265): non-dict entries are skipped, the `pr_dict` is
built with defaults, and the entry is skipped when `pr_dict['number'] is
None or not pr_dict['html_url']`. -/
def parseSummary (pr : JVal) : Option Summary :=
  match pr with
  | JVal.jobj o =>
    let number := pyGet o "number"
    let title := pyOr (pyGet o "title") (JVal.jstr "Untitled")
    let body := pyOr (pyGet o "body") (JVal.jstr "")
    let html_url := pyOr (pyGet o "html_url") (JVal.jstr "")
    if number.isNone || !(vTruthy html_url) then none
    else some ⟨number, title, body, html_url, extractAuthor o⟩
  | _ => none

/-- Embedding of `GitHubClient.get_open_pull_requests`
(github_client.py:209-267), starting from the parsed JSON payload of the
response.  `payload = none` covers both a failed `_make_request` and a JSON
decode error; a non-list payload yields `[]`. -/
def get_open_pull_requests (payload : Option JVal) : List Summary :=
  match payload with
  | some (JVal.jlist prs) => prs.filterMap parseSummary
  | _ => []

/-- Embedding of `GitHubClient.get_pull_request_details`
(github_client.py:269-315), starting from the parsed JSON payload.  A
non-dict payload yields `none`; otherwise the detail dict is returned with
no check whatsoever on the extracted fields. -/
def get_pull_request_details (payload : Option JVal) : Option Detail :=
  match payload with
  | some (JVal.jobj o) =>
    some ⟨pyGet o "number",
          pyOr (pyGet o "title") (JVal.jstr "Untitled"),
          pyOr (pyGet o "body") (JVal.jstr ""),
          pyOr (pyGet o "html_url") (JVal.jstr ""),
          extractAuthor o,
          pyGetD o "state" (JVal.jstr "unknown"),
          pyGetD o "created_at" (JVal.jstr ""),
          pyGetD o "updated_at" (JVal.jstr "")⟩
  | _ => none

/-! ## Review generator model (`src/llm_reviewer.py`) -/

/-- Python `str.split('\n')` on the character list of a string: always at
least one piece, empty pieces preserved. -/
def pySplit (sep : Char) : List Char → List (List Char)
  | [] => [[]]
  | c :: cs =>
    match pySplit sep cs with
    | [] => [[]]
    | l :: ls => if c = sep then [] :: l :: ls else (c :: l) :: ls

/-- Whitespace set of Python `str.strip()` (ASCII range). -/
def pyIsSpace (c : Char) : Bool :=
  c = ' ' || c = '\t' || c = '\n' || c = '\r' || c = '\x0B' || c = '\x0C'

/-- Python `str.strip()` (ASCII whitespace). -/
def pyStrip (s : String) : String :=
  ⟨((s.data.dropWhile pyIsSpace).reverse.dropWhile pyIsSpace).reverse⟩

/-- Python `str.rstrip(chars)`: removes the longest trailing run of
characters drawn from the set `chars` (NOT the literal suffix). -/
def pyRstrip (chars : List Char) (cs : List Char) : List Char :=
  (cs.reverse.dropWhile (fun c => chars.contains c)).reverse

/-- Index of the last occurrence of `c`, Python `str.rfind` restricted to a
single character (github_client's `truncated.rfind('\n')`); `none` models
the Python return value `-1`. -/
def rfindChar (c : Char) : List Char → Option Nat
  | [] => none
  | c' :: rest =>
    match rfindChar c rest with
    | some i => some (i + 1)
    | none => if c' = c then some 0 else none

/-- Embedding of `LLMReviewer.truncate_content` (llm_reviewer.py:61-84) for
an explicit character budget.  The Python guard
`last_newline > max_chars * 0.8` is expressed over integers as
`4 * max_chars < 5 * last_newline`; for every budget below 2^50 the float
product `max_chars * 0.8` rounds to a value ordered identically against the
integer `last_newline`, so the two guards coincide. -/
def truncate_content (content : String) (max_chars : Nat) : String :=
  if content.length ≤ max_chars then content
  else
    let truncated := content.data.take max_chars
    match rfindChar '\n' truncated with
    | some i => if 4 * max_chars < 5 * i then ⟨truncated.take i⟩ else ⟨truncated⟩
    | none => ⟨truncated⟩

/-- Count of added lines in `_generate_fallback_review`
(llm_reviewer.py:316-317): lines starting with `+` but not `+++`. -/
def added_lines (diff : String) : Nat :=
  ((pySplit '\n' diff.data).filter
    (fun l => ['+'].isPrefixOf l && !(['+', '+', '+'].isPrefixOf l))).length

/-- Count of removed lines (llm_reviewer.py:318): lines starting with `-`
but not `---`. -/
def removed_lines (diff : String) : Nat :=
  ((pySplit '\n' diff.data).filter
    (fun l => ['-'].isPrefixOf l && !(['-', '-', '-'].isPrefixOf l))).length

/-- Count of file markers (llm_reviewer.py:319): lines starting with `+++`. -/
def file_changes (diff : String) : Nat :=
  ((pySplit '\n' diff.data).filter
    (fun l => ['+', '+', '+'].isPrefixOf l)).length

/-- The complexity heuristic of `_generate_fallback_review`
(llm_reviewer.py:321-326): `complexity = "LOW"`, then `HIGH` when
`added_lines > 100`, `MEDIUM` when `added_lines > 50`. -/
def change_complexity (diff : String) : String :=
  if 100 < added_lines diff then "HIGH"
  else if 50 < added_lines diff then "MEDIUM"
  else "LOW"

/-- Embedding of `LLMReviewer._generate_fallback_review`
(llm_reviewer.py:300-351): the fixed markdown template with the line
statistics interpolated. -/
def generate_fallback_review (diff : String) : String :=
  if diff = "" then
    "## Automated Code Review (Fallback Mode)\n\nNo diff content available for analysis."
  else
    "## Automated Code Review (Fallback Mode)\n\n**Note:** AI review service is temporarily unavailable. Basic analysis provided.\n\n### Change Summary\n- **Files Modified:** "
      ++ toString (file_changes diff)
      ++ "\n- **Lines Added:** " ++ toString (added_lines diff)
      ++ "\n- **Lines Removed:** " ++ toString (removed_lines diff)
      ++ "\n- **Change Complexity:** " ++ change_complexity diff
      ++ "\n\n### Recommended Manual Checks\n1. **Code Review:** Carefully examine all added code for logic errors\n2. **Testing:** Verify adequate test coverage for new functionality\n3. **Security:** Check for potential security issues in new code\n4. **Documentation:** Ensure comments and docs are updated\n5. **Integration:** Test integration with existing systems\n\nPlease perform a thorough manual code review of these changes."

/-- Embedding of `LLMReviewer._clean_review_response`
(llm_reviewer.py:256-278): `re.sub(r'[^.!?]+$', '', review)` removes the
maximal trailing run of characters that are not sentence-terminal, then a
terminal `.` is appended when missing, then `str.strip()`. -/
def clean_review_response (review : String) : String :=
  if review = "" then ""
  else
    let r1 : String :=
      ⟨(review.data.reverse.dropWhile
          (fun c => !(c = '.' || c = '!' || c = '?'))).reverse⟩
    let r2 : String :=
      if (r1 != "") && (match r1.data.getLast? with
                        | some c => !(c = '.' || c = '!' || c = '?')
                        | none => false) then r1 ++ "." else r1
    pyStrip r2

/-- Python exceptions that escape `_call_huggingface_api`: its `try` block
catches only the `requests` exception classes, so an `AttributeError`
raised while parsing a 200 body propagates out of the whole call chain
(`generate_review` and `generate_review_with_fallback` have no handler
either). -/
inductive PyExc where
  | attributeError
deriving DecidableEq

/-- The `generated_text = result_obj.get('generated_text', '')` extraction
shared by the list and dict branches (llm_reviewer.py:135-146): an absent
key defaults to `''` (falsy), a present `null` is Python `None` (falsy); a
truthy string is stripped and returned; a truthy NON-string value raises
`AttributeError` at `generated_text.strip()` (llm_reviewer.py:137/144),
which is not caught. -/
def extractGeneratedText (o : List (String × JVal)) : Except PyExc (Option String) :=
  match pyGetD o "generated_text" (JVal.jstr "") with
  | none => Except.ok none
  | some (JVal.jstr s) =>
    if s = "" then Except.ok none else Except.ok (some (pyStrip s))
  | some v =>
    if vTruthy v then Except.error PyExc.attributeError else Except.ok none

/-- Parsing of a 200 response body inside `_call_huggingface_api`
(llm_reviewer.py:122-149): `none` is a JSON decode error (logged, returns
`None`); a non-empty list is read through its first element — when that
element is not a dict, `result[0].get('generated_text', '')`
(llm_reviewer.py:135) raises an uncaught `AttributeError`; a dict payload
is read directly; an empty list or any other shape logs "Unexpected
response format" and returns `None`. -/
def parse200 (body : Option JVal) : Except PyExc (Option String) :=
  match body with
  | none => Except.ok none
  | some (JVal.jlist (JVal.jobj o :: _)) => extractGeneratedText o
  | some (JVal.jlist (_ :: _)) => Except.error PyExc.attributeError
  | some (JVal.jobj o) => extractGeneratedText o
  | some _ => Except.ok none

/-- Embedding of `LLMReviewer.generate_review` (llm_reviewer.py:209-254) as
a function of the outcome of `_call_huggingface_api` for the built prompt:
an exception propagates; a truthy (non-`None`, non-empty) API result is
cleaned and returned; anything else yields `None`. -/
def generate_review (api : Except PyExc (Option String)) :
    Except PyExc (Option String) :=
  match api with
  | Except.error e => Except.error e
  | Except.ok none => Except.ok none
  | Except.ok (some r) =>
    if r = "" then Except.ok none else Except.ok (some (clean_review_response r))

/-- Embedding of `LLMReviewer.generate_review_with_fallback`
(llm_reviewer.py:280-298): an exception from the inference call chain
propagates (there is no handler); a truthy review is returned as is;
otherwise the deterministic fallback review of the diff. -/
def generate_review_with_fallback (api : Except PyExc (Option String))
    (diff : String) : Except PyExc String :=
  match generate_review api with
  | Except.error e => Except.error e
  | Except.ok (some r) =>
    if r = "" then Except.ok (generate_fallback_review diff) else Except.ok r
  | Except.ok none => Except.ok (generate_fallback_review diff)

/-- The outcome of one `requests.post(...)` inside `_call_huggingface_api`:
an HTTP response with status code and parsed JSON body, or one of the
caught exception classes. -/
inductive HFOutcome where
  | httpResp (code : Nat) (body : Option JVal)
  | timeout
  | connError
  | otherExc

/-- Embedding of the self-recursive `LLMReviewer._call_huggingface_api`
(llm_reviewer.py:86-207).  Returns the result together with the number of
POST attempts issued.  The Python recursion depth is bounded by the
top-of-function guard `if retry_count >= config.max_retries: return None`;
`fuel` is `mr - retry`, so the fuel-exhausted base case coincides with that
guard (see `call_hf_aux_guard` below). -/
def call_hf_aux (mr : Nat) (world : Nat → HFOutcome) :
    Nat → Nat → Except PyExc (Option String) × Nat
  | 0, _ => (Except.ok none, 0)
  | fuel + 1, retry =>
    if mr ≤ retry then (Except.ok none, 0)
    else
      match world retry with
      | HFOutcome.httpResp code body =>
        if code = 200 then (parse200 body, 1)
        else if code = 503 then
          -- model loading: sleep then unconditional self-call
          let nxt := call_hf_aux mr world fuel (retry + 1)
          (nxt.1, nxt.2 + 1)
        else if 500 ≤ code ∧ code < 600 then
          if retry < mr then
            let nxt := call_hf_aux mr world fuel (retry + 1)
            (nxt.1, nxt.2 + 1)
          else (Except.ok none, 1)
        else (Except.ok none, 1)
      | HFOutcome.timeout =>
        if retry < mr then
          let nxt := call_hf_aux mr world fuel (retry + 1)
          (nxt.1, nxt.2 + 1)
        else (Except.ok none, 1)
      | HFOutcome.connError =>
        if retry < mr then
          let nxt := call_hf_aux mr world fuel (retry + 1)
          (nxt.1, nxt.2 + 1)
        else (Except.ok none, 1)
      | HFOutcome.otherExc =>
        if retry < mr then
          let nxt := call_hf_aux mr world fuel (retry + 1)
          (nxt.1, nxt.2 + 1)
        else (Except.ok none, 1)

/-- `_call_huggingface_api(prompt)` starting at `retry_count = 0` with retry
ceiling `mr = config.max_retries`.  The first component is the returned
value (`Except.error` when an uncaught exception escapes), the second the
number of POST attempts issued. -/
def call_huggingface_api (mr : Nat) (world : Nat → HFOutcome) :
    Except PyExc (Option String) × Nat :=
  call_hf_aux mr world mr 0

/-! ## Configuration model (`src/config.py`) -/

/-- The tail of the repository-URL regular expression
`github\.com[/:]([^/]+)/([^/]+)/?$` after `github.com[/:]` has been
matched: the remaining text must be `A/B` or `A/B/` with `A`, `B` non-empty
and slash-free; the two groups are returned. -/
def ghTailSplit (t : List Char) : Option (List Char × List Char) :=
  let t' := match t.getLast? with
            | some c => if c = '/' then t.dropLast else t
            | none => t
  let a := t'.takeWhile (fun c => c ≠ '/')
  match t'.dropWhile (fun c => c ≠ '/') with
  | '/' :: b => if a ≠ [] ∧ b ≠ [] ∧ !b.contains '/' then some (a, b) else none
  | _ => none

/-- One anchoring position of the regular expression: the text must start
with the literal `github.com`, then `/` or `:`, then match `ghTailSplit` up
to the end of the string. -/
def ghAt (cs : List Char) : Option (List Char × List Char) :=
  if "github.com".data.isPrefixOf cs then
    match cs.drop 10 with
    | c :: rest => if c = '/' ∨ c = ':' then ghTailSplit rest else none
    | [] => none
  else none

/-- `re.search` of the pattern: try every start position left to right. -/
def searchGh : List Char → Option (List Char × List Char)
  | [] => none
  | c :: cs =>
    match ghAt (c :: cs) with
    | some r => some r
    | none => searchGh cs

/-- Embedding of `Config._parse_repository` (config.py:62-101); `none`
models the raised `ValueError`.  Note the source uses
`repo_input.rstrip('.git')`, which removes ALL trailing characters drawn
from the set `.`, `g`, `i`, `t`, not just a literal `.git` suffix. -/
def parse_repository (repo_input : String) : Option String :=
  if pyStrip repo_input = "" then none
  else
    let r := pyStrip repo_input
    if r.data.contains '/' && !("http".data.isPrefixOf r.data) then some r
    else if "http".data.isPrefixOf r.data then
      match searchGh (pyRstrip ['.', 'g', 'i', 't'] r.data) with
      | some (a, b) => some (⟨a⟩ ++ "/" ++ ⟨b⟩)
      | none => none
    else none

/-! ## Concrete inputs used by counterexamples and witnesses -/

/-- A diff consisting of `n` added lines `+x`. -/
def mkDiff (n : Nat) : String :=
  String.join (List.replicate n "+x\n")

/-- Gateway payload: a single PR entry whose `number` is the JSON integer 0. -/
def payloadNumberZero : Option JVal :=
  some (JVal.jlist [JVal.jobj [("number", JVal.jnum 0), ("html_url", JVal.jstr "u")]])

/-- Gateway payload: a single well-formed PR entry with number 7. -/
def payloadNumberSeven : Option JVal :=
  some (JVal.jlist [JVal.jobj [("number", JVal.jnum 7), ("html_url", JVal.jstr "u")]])

/-- The summary produced from `payloadNumberSeven`. -/
def summarySeven : Summary :=
  ⟨some (JVal.jnum 7), JVal.jstr "Untitled", JVal.jstr "", JVal.jstr "u", none⟩

/-- A 403 response whose remaining-quota header is 5 (> 0). -/
def resp403Quota : Response := ⟨403, some 5, ResetInfo.absent⟩

/-- A plain 200 response. -/
def resp200 : Response := ⟨200, some 7, ResetInfo.absent⟩

/-- Executor world for C4: attempt 0 gets the 403-with-quota response,
attempt 1 gets a 200 response. -/
def worldC4 : Nat → GhOutcome :=
  fun k => if k = 0 then GhOutcome.resp resp403Quota
           else if k = 1 then GhOutcome.resp resp200
           else GhOutcome.otherExc

/-- Executor world for C8: a single 200 response whose remaining-quota
header is -5. -/
def worldC8 : Nat → GhOutcome :=
  fun _ => GhOutcome.resp ⟨200, some (-5), ResetInfo.absent⟩

/-- Executor world for the C8 witness: every response carries remaining 3. -/
def worldC8W : Nat → GhOutcome :=
  fun _ => GhOutcome.resp ⟨200, some 3, ResetInfo.absent⟩

/-- A constant clock. -/
def clock0 : Nat → Rat := fun _ => 0

/-- A rate-limited 429 response with reset timestamp 100. -/
def respC6 : Response := ⟨429, some 0, ResetInfo.valid 100⟩

/-- The URL whose repository name ends in characters from the `.git` set. -/
def urlDigit : String := "https://github.com/acme/digit"

/-- The URL of the spec scenario. -/
def urlWidgets : String := "https://github.com/acme/widgets.git"

/-- Truncation example: 16 characters, newline at index 10. -/
def exContent : String := "0123456789\nabcde"

/-- Inference world for C9: every POST gets HTTP 200 whose JSON body is the
list `[1]` (non-empty, first element not a dict). -/
def worldC9 : Nat → HFOutcome :=
  fun _ => HFOutcome.httpResp 200 (some (JVal.jlist [JVal.jnum 1]))

/-! ## Helper lemmas -/

lemma runAttempts_attempts_le (mr : Nat) (world : Nat → GhOutcome)
    (clock : Nat → Rat) :
    ∀ fuel attempt st, (runAttempts mr world clock fuel attempt st).attempts ≤ fuel := by
  intro fuel
  induction fuel with
  | zero => intro attempt st; simp [runAttempts]
  | succ n ih =>
    intro attempt st
    rw [runAttempts]
    cases hw : world attempt with
    | resp r =>
      dsimp only
      split
      · cases hrl : handle_rate_limit r (clock attempt) with
        | some s => dsimp only; exact Nat.succ_le_succ (ih _ _)
        | none =>
          dsimp only
          split
          · exact Nat.succ_le_succ (ih _ _)
          · exact Nat.succ_le_succ (Nat.zero_le n)
      · split
        · exact Nat.succ_le_succ (Nat.zero_le n)
        · exact Nat.succ_le_succ (Nat.zero_le n)
    | timeout =>
      dsimp only
      split
      · exact Nat.succ_le_succ (ih _ _)
      · exact Nat.succ_le_succ (Nat.zero_le n)
    | connError =>
      dsimp only
      split
      · exact Nat.succ_le_succ (ih _ _)
      · exact Nat.succ_le_succ (Nat.zero_le n)
    | otherExc => exact Nat.succ_le_succ (Nat.zero_le n)

lemma runAttempts_rem_nonneg (mr : Nat) (world : Nat → GhOutcome)
    (clock : Nat → Rat)
    (hw : ∀ k r, world k = GhOutcome.resp r → 0 ≤ parseRemaining r) :
    ∀ fuel attempt st, 0 ≤ st →
      0 ≤ (runAttempts mr world clock fuel attempt st).rem := by
  intro fuel
  induction fuel with
  | zero => intro attempt st hst; simpa [runAttempts] using hst
  | succ n ih =>
    intro attempt st hst
    rw [runAttempts]
    cases hwk : world attempt with
    | resp r =>
      have hr : 0 ≤ parseRemaining r := hw attempt r hwk
      dsimp only
      split
      · cases hrl : handle_rate_limit r (clock attempt) with
        | some s => exact ih _ _ hr
        | none =>
          dsimp only
          split
          · exact ih _ _ hr
          · exact hr
      · split
        · exact hr
        · exact hr
    | timeout =>
      dsimp only
      split
      · exact ih _ _ hst
      · exact hst
    | connError =>
      dsimp only
      split
      · exact ih _ _ hst
      · exact hst
    | otherExc => exact hst

lemma call_hf_aux_count_le (mr : Nat) (world : Nat → HFOutcome) :
    ∀ fuel retry, (call_hf_aux mr world fuel retry).2 ≤ fuel := by
  intro fuel
  induction fuel with
  | zero => intro retry; simp [call_hf_aux]
  | succ n ih =>
    intro retry
    rw [call_hf_aux]
    split
    · exact Nat.zero_le _
    · cases hwk : world retry with
      | httpResp code body =>
        dsimp only
        split
        · exact Nat.succ_le_succ (Nat.zero_le n)
        · split
          · exact Nat.succ_le_succ (ih _)
          · split
            · split
              · exact Nat.succ_le_succ (ih _)
              · exact Nat.succ_le_succ (Nat.zero_le n)
            · exact Nat.succ_le_succ (Nat.zero_le n)
      | timeout =>
        dsimp only
        split
        · exact Nat.succ_le_succ (ih _)
        · exact Nat.succ_le_succ (Nat.zero_le n)
      | connError =>
        dsimp only
        split
        · exact Nat.succ_le_succ (ih _)
        · exact Nat.succ_le_succ (Nat.zero_le n)
      | otherExc =>
        dsimp only
        split
        · exact Nat.succ_le_succ (ih _)
        · exact Nat.succ_le_succ (Nat.zero_le n)

lemma call_hf_aux_guard (mr : Nat) (world : Nat → HFOutcome) :
    ∀ fuel retry, mr ≤ retry →
      call_hf_aux mr world fuel retry = (Except.ok none, 0) := by
  intro fuel retry h
  cases fuel with
  | zero => rfl
  | succ n => rw [call_hf_aux, if_pos h]

lemma rfindChar_lt_length {c : Char} :
    ∀ {cs : List Char} {i : Nat}, rfindChar c cs = some i → i < cs.length := by
  intro cs
  induction cs with
  | nil => intro i h; simp [rfindChar] at h
  | cons c' rest ih =>
    intro i h
    rw [rfindChar] at h
    cases hr : rfindChar c rest with
    | some j =>
      simp only [hr] at h
      injection h with h
      subst h
      exact Nat.succ_lt_succ (ih hr)
    | none =>
      simp only [hr] at h
      by_cases hc : c' = c
      · simp only [if_pos hc] at h
        injection h with h
        subst h
        simp
      · simp [if_neg hc] at h

lemma rfindChar_get {c : Char} :
    ∀ {cs : List Char} {i : Nat}, rfindChar c cs = some i → cs.get? i = some c := by
  intro cs
  induction cs with
  | nil => intro i h; simp [rfindChar] at h
  | cons c' rest ih =>
    intro i h
    rw [rfindChar] at h
    cases hr : rfindChar c rest with
    | some j =>
      simp only [hr] at h
      injection h with h
      subst h
      simpa using ih hr
    | none =>
      simp only [hr] at h
      by_cases hc : c' = c
      · simp only [if_pos hc] at h
        injection h with h
        subst h
        simp [hc]
      · simp [if_neg hc] at h

lemma rfindChar_ge_of_get {c : Char} :
    ∀ {cs : List Char} {j : Nat}, cs.get? j = some c →
      ∃ i, rfindChar c cs = some i ∧ j ≤ i := by
  intro cs
  induction cs with
  | nil => intro j h; simp at h
  | cons c' rest ih =>
    intro j h
    cases j with
    | zero =>
      cases hr : rfindChar c rest with
      | some k => exact ⟨k + 1, by rw [rfindChar, hr], Nat.zero_le _⟩
      | none =>
        refine ⟨0, ?_, Nat.le_refl 0⟩
        have hc : c' = c := by simpa using h
        rw [rfindChar, hr, if_pos hc]
    | succ j' =>
      have h' : rest.get? j' = some c := by simpa using h
      obtain ⟨i, hi, hji⟩ := ih h'
      exact ⟨i + 1, by rw [rfindChar, hi], Nat.succ_le_succ hji⟩

lemma string_append_ne_empty (a b : String) (ha : a ≠ "") : a ++ b ≠ "" := by
  intro h
  apply ha
  have hd : a.data ++ b.data = [] := congrArg String.data h
  exact String.ext (List.append_eq_nil.mp hd).1

lemma fallback_ne_empty (diff : String) : generate_fallback_review diff ≠ "" := by
  unfold generate_fallback_review
  split
  · decide
  · refine string_append_ne_empty _ _ ?_
    refine string_append_ne_empty _ _ ?_
    refine string_append_ne_empty _ _ ?_
    refine string_append_ne_empty _ _ ?_
    refine string_append_ne_empty _ _ ?_
    refine string_append_ne_empty _ _ ?_
    refine string_append_ne_empty _ _ ?_
    refine string_append_ne_empty _ _ ?_
    decide

/-! ## Claim theorems -/

/-- C1 (counterexample): a diff with exactly 50 added lines is classified
LOW by `_generate_fallback_review`, not MEDIUM as the claim states. -/
theorem c1_counterexample :
    added_lines (mkDiff 50) = 50 ∧
    change_complexity (mkDiff 50) = "LOW" ∧
    change_complexity (mkDiff 50) ≠ "MEDIUM" := by
  refine ⟨by decide, by decide, by decide⟩

/-- C1 (amended): the fallback complexity classification maps 0-50 added
lines to LOW, 51-100 to MEDIUM and 101 or more to HIGH; in particular
exactly 50 added lines is classified LOW and exactly 100 is MEDIUM. -/
theorem c1_fallback_complexity (diff : String) :
    (added_lines diff ≤ 50 → change_complexity diff = "LOW") ∧
    (50 < added_lines diff → added_lines diff ≤ 100 →
      change_complexity diff = "MEDIUM") ∧
    (100 < added_lines diff → change_complexity diff = "HIGH") := by
  unfold change_complexity
  refine ⟨?_, ?_, ?_⟩
  · intro h
    rw [if_neg (by omega), if_neg (by omega)]
  · intro h1 h2
    rw [if_neg (by omega), if_pos h1]
  · intro h
    rw [if_pos h]

set_option maxRecDepth 8000 in
/-- C1 (witness): a diff with 60 added lines is classified MEDIUM. -/
theorem c1_witness : change_complexity (mkDiff 60) = "MEDIUM" :=
  (c1_fallback_complexity (mkDiff 60)).2.1 (by decide) (by decide)

/-- C2: for every retry ceiling `mr ≥ 0`, every outcome oracle and every
clock, `_make_request` issues at most `mr + 1` HTTP call attempts; the
retry loop is structurally bounded by the ceiling, so no path retries
forever. -/
theorem c2_executor_attempt_bound (mr : Nat) (world : Nat → GhOutcome)
    (clock : Nat → Rat) (st : Int) :
    (make_request mr world clock st).attempts ≤ mr + 1 :=
  runAttempts_attempts_le mr world clock (mr + 1) 0 st

/-- C3 (counterexample): a listing payload whose single entry has
`number = 0` is exposed by `get_open_pull_requests` with that non-positive
number, and a detail payload without a `number` key is exposed by
`get_pull_request_details` with a missing number. -/
theorem c3_counterexample :
    (get_open_pull_requests payloadNumberZero).map Summary.number
      = [some (JVal.jnum 0)] ∧
    (get_pull_request_details (some (JVal.jobj []))).map Detail.number
      = some none :=
  ⟨rfl, rfl⟩

/-- C3 (amended): every summary exposed by `get_open_pull_requests` has a
present (non-`None`) number field and a truthy (non-empty) URL; the number
is not checked for positivity, and `get_pull_request_details` performs no
such check at all. -/
theorem c3_summary_fields (payload : Option JVal) (s : Summary)
    (hs : s ∈ get_open_pull_requests payload) :
    s.number ≠ none ∧ vTruthy s.html_url = true := by
  cases payload with
  | none => simp [get_open_pull_requests] at hs
  | some v =>
    cases v with
    | jlist prs =>
      simp only [get_open_pull_requests, List.mem_filterMap] at hs
      obtain ⟨pr, _, hps⟩ := hs
      cases pr with
      | jobj o =>
        rw [parseSummary] at hps
        by_cases hn : (pyGet o "number").isNone
        · simp [hn] at hps
        · by_cases hu : vTruthy (pyOr (pyGet o "html_url") (JVal.jstr ""))
          · rw [if_neg (by simp [hn, hu])] at hps
            injection hps with hps
            subst hps
            refine ⟨?_, hu⟩
            simpa [Option.isNone_iff_eq_none] using hn
          · simp [hn, hu] at hps
      | jnull => simp [parseSummary] at hps
      | jbool b => simp [parseSummary] at hps
      | jnum n => simp [parseSummary] at hps
      | jstr t => simp [parseSummary] at hps
      | jlist l => simp [parseSummary] at hps
    | jnull => simp [get_open_pull_requests] at hs
    | jbool b => simp [get_open_pull_requests] at hs
    | jnum n => simp [get_open_pull_requests] at hs
    | jstr t => simp [get_open_pull_requests] at hs
    | jobj o => simp [get_open_pull_requests] at hs

/-- C3 (witness): the well-formed entry with number 7 yields an exposed
summary with a present number and truthy URL. -/
theorem c3_witness :
    summarySeven.number ≠ none ∧ vTruthy summarySeven.html_url = true := by
  have hmem : summarySeven ∈ get_open_pull_requests payloadNumberSeven := by
    have h : get_open_pull_requests payloadNumberSeven = [summarySeven] := rfl
    rw [h]
    exact List.Mem.head _
  exact c3_summary_fields payloadNumberSeven summarySeven hmem

set_option maxRecDepth 8000 in
/-- C4 (code-bug evaluation): on a 403 response whose remaining-quota
header is 5 (> 0), `_handle_rate_limit` returns the backoff signal `none`,
and `_make_request` then sleeps and retries with exponential backoff instead
of performing the claimed generic error handling: with a 200 response on the
next attempt the request succeeds after 2 attempts rather than failing after
the first. -/
theorem c4_backoff_on_403_with_quota :
    handle_rate_limit resp403Quota 0 = none ∧
    (make_request 5 worldC4 clock0 10).result = some resp200 ∧
    (make_request 5 worldC4 clock0 10).attempts = 2 := by
  refine ⟨by decide, by decide, by decide⟩

/-- C5: for a positive budget, `truncate_content` is the identity when the
content fits; otherwise the result is at most the budget long and, whenever
a newline occurs in the budget window strictly past 0.8 times the budget
(over integers, `4 * max_chars < 5 * j`), the result is exactly the window
cut at its last newline (which sits at or after that position). -/
theorem c5_truncate_content (content : String) (max_chars : Nat)
    (_hpos : 0 < max_chars) :
    (content.length ≤ max_chars → truncate_content content max_chars = content) ∧
    (max_chars < content.length →
      (truncate_content content max_chars).length ≤ max_chars) ∧
    (∀ j, max_chars < content.length →
      (content.data.take max_chars).get? j = some '\n' →
      4 * max_chars < 5 * j →
      ∃ i, rfindChar '\n' (content.data.take max_chars) = some i ∧ j ≤ i ∧
        (truncate_content content max_chars).data
          = (content.data.take max_chars).take i ∧
        (content.data.take max_chars).get? i = some '\n') := by
  refine ⟨?_, ?_, ?_⟩
  · intro h
    unfold truncate_content
    rw [if_pos h]
  · intro h
    unfold truncate_content
    rw [if_neg (not_le.mpr h)]
    dsimp only
    cases hr : rfindChar '\n' (content.data.take max_chars) with
    | none =>
      show (content.data.take max_chars).length ≤ max_chars
      simp [List.length_take]
    | some i =>
      dsimp only
      split
      · show ((content.data.take max_chars).take i).length ≤ max_chars
        simp only [List.length_take]
        omega
      · show (content.data.take max_chars).length ≤ max_chars
        simp [List.length_take]
  · intro j h hget hj
    obtain ⟨i, hi, hji⟩ := rfindChar_ge_of_get hget
    refine ⟨i, hi, hji, ?_, rfindChar_get hi⟩
    unfold truncate_content
    rw [if_neg (not_le.mpr h)]
    dsimp only
    rw [hi]
    dsimp only
    rw [if_pos (by omega)]

/-- C5 (witness): a 16-character content with budget 12 and the last window
newline at index 10 (past 0.8 × 12 = 9.6) truncates to the first 10
characters. -/
theorem c5_witness : truncate_content exContent 12 = "0123456789" := by
  obtain ⟨i, hi, hji, hdata, hnl⟩ :=
    (c5_truncate_content exContent 12 (by decide)).2.2 10 (by decide)
      (by decide) (by decide)
  have h0 : rfindChar '\n' (exContent.data.take 12) = some 10 := by decide
  rw [h0] at hi
  have hi10 : i = 10 := (Option.some.inj hi).symm
  subst hi10
  apply String.ext
  rw [hdata]
  decide

/-- C6: for every rate-limited response (429, or 403 with remaining quota
at most 0), `_handle_rate_limit` with a valid reset timestamp `t` returns
the wait `t - now` within rounding (its floor, which is within 1 of the
exact value) when `t - now ≥ 1`, and signals exponential backoff (`none`)
when `t - now < 1` or when the reset header is absent or unparsable. -/
theorem c6_handle_rate_limit (r : Response) (now : Rat)
    (hrl : r.status = 429 ∨ (r.status = 403 ∧ r.remaining.getD 0 ≤ 0)) :
    (∀ t : Int, r.reset = ResetInfo.valid t →
      (1 ≤ (t : Rat) - now →
        handle_rate_limit r now = some (Int.floor ((t : Rat) - now)) ∧
        ((t : Rat) - now) - 1 < ((Int.floor ((t : Rat) - now) : Int) : Rat) ∧
        ((Int.floor ((t : Rat) - now) : Int) : Rat) ≤ (t : Rat) - now) ∧
      ((t : Rat) - now < 1 → handle_rate_limit r now = none)) ∧
    (r.reset = ResetInfo.absent → handle_rate_limit r now = none) ∧
    (r.reset = ResetInfo.invalid → handle_rate_limit r now = none) := by
  have hstatus : r.status = 403 ∨ r.status = 429 := by
    rcases hrl with h | ⟨h, _⟩
    · exact Or.inr h
    · exact Or.inl h
  have hcond : ¬(0 < r.remaining.getD 0 ∧ r.status ≠ 429) := by
    rcases hrl with h | ⟨h403, hrem⟩
    · exact fun hc => hc.2 h
    · exact fun hc => absurd hc.1 (not_lt.mpr hrem)
  unfold handle_rate_limit
  rw [if_neg (not_not_intro hstatus)]
  dsimp only
  rw [if_neg hcond]
  refine ⟨?_, ?_, ?_⟩
  · intro t ht
    rw [ht]
    dsimp only
    constructor
    · intro hge
      have hmax : max ((t : Rat) - now) 0 = (t : Rat) - now :=
        max_eq_left (le_trans zero_le_one hge)
      rw [hmax, if_neg (not_lt.mpr hge)]
      exact ⟨rfl, Int.sub_one_lt_floor _, Int.floor_le _⟩
    · intro hlt
      rw [if_pos]
      exact max_lt hlt one_pos
  · intro ha
    rw [ha]
  · intro ha
    rw [ha]

/-- C6 (witness): a 429 response with remaining 0 and reset timestamp 100,
seen at time 40, yields a computed wait of 60 seconds. -/
theorem c6_witness : handle_rate_limit respC6 40 = some 60 := by
  have h :=
    ((c6_handle_rate_limit respC6 40 (Or.inl rfl)).1 100 rfl).1 (by norm_num)
  rw [h.1]
  norm_num

/-- C7 (code-bug evaluation): `_parse_repository` maps the plain GitHub URL
`https://github.com/acme/digit` to `acme/d` instead of `acme/digit`,
because `rstrip('.git')` removes every trailing character from the set
`.`, `g`, `i`, `t`; the spec scenario `https://github.com/acme/widgets.git`
does normalize to `acme/widgets`. -/
theorem c7_parse_repository_bug :
    parse_repository urlDigit = some "acme/d" ∧
    parse_repository urlWidgets = some "acme/widgets" ∧
    "acme/d" ≠ "acme/digit" := by
  refine ⟨by decide, by decide, by decide⟩

/-- C8 (counterexample): a completed call whose remaining-quota header is
-5 drives the executor's `rate_limit_remaining` to -5: the parsed value is
stored without any clamping. -/
theorem c8_counterexample :
    (make_request 0 worldC8 clock0 10).rem = -5 ∧
    (make_request 0 worldC8 clock0 10).rem < 0 := by
  refine ⟨by decide, by decide⟩

/-- C8 (amended): `rate_limit_remaining` is stored as parsed (default 10
when the header is absent), with no clamping; it stays non-negative exactly
when every response's parsed header value is non-negative and the incoming
state is non-negative. -/
theorem c8_remaining_nonneg (mr : Nat) (world : Nat → GhOutcome)
    (clock : Nat → Rat) (st : Int)
    (hw : ∀ k r, world k = GhOutcome.resp r → 0 ≤ parseRemaining r)
    (hst : 0 ≤ st) :
    0 ≤ (make_request mr world clock st).rem :=
  runAttempts_rem_nonneg mr world clock hw (mr + 1) 0 st hst

/-- C8 (witness): with responses whose remaining header is 3, the final
state is non-negative. -/
theorem c8_witness : 0 ≤ (make_request 1 worldC8W clock0 10).rem :=
  c8_remaining_nonneg 1 worldC8W clock0 10
    (fun k r h => by
      simp only [worldC8W] at h
      injection h with h2
      rw [← h2]
      decide)
    (by decide)

/-- C9 (code-bug evaluation): an HTTP 200 inference response whose JSON
body is the list `[1]` makes `result[0].get('generated_text', '')`
(llm_reviewer.py:135) raise an uncaught `AttributeError`, which propagates
through `generate_review` out of `generate_review_with_fallback`: at this
input the call crashes instead of returning a document, refuting the
never-fails guarantee that the spec and the module's own docstrings state. -/
theorem c9_crash_on_malformed_200 :
    parse200 (some (JVal.jlist [JVal.jnum 1]))
      = Except.error PyExc.attributeError ∧
    (call_huggingface_api 5 worldC9).1 = Except.error PyExc.attributeError ∧
    generate_review_with_fallback (call_huggingface_api 5 worldC9).1 "+x\n"
      = Except.error PyExc.attributeError :=
  ⟨rfl, rfl, rfl⟩

/-- C10: for every retry ceiling `mr`, `_call_huggingface_api` starting at
`retry_count = 0` issues at most `mr` POST attempts (one fewer than the
executor's `mr + 1`), because the top-of-function guard returns `None` once
`retry_count` reaches `mr`; with `mr = 0` no request is sent at all and the
fallback review is always used. -/
theorem c10_hf_attempt_bound (mr : Nat) (world : Nat → HFOutcome)
    (diff : String) :
    (call_huggingface_api mr world).2 ≤ mr ∧
    call_huggingface_api 0 world = (Except.ok none, 0) ∧
    generate_review_with_fallback (call_huggingface_api 0 world).1 diff
      = Except.ok (generate_fallback_review diff) :=
  ⟨call_hf_aux_count_le mr world mr 0, rfl, rfl⟩
